import Mathlib

/-!
Verification of the godot_grpc gRPC client binding (shallow embedding).

The embedding models the four components of the repository that the claims
concern, translated from the C++ sources:
- the status/error translator (src/util/status_map.cpp),
- the stream engine GrpcStream (src/grpc_stream.cpp),
- the channel manager GrpcChannelPool (appended to src/grpc_client.h),
- the client facade GrpcClient (src/grpc_client.cpp).

The transport library (gRPC core) is an external collaborator: its completion
queue acknowledgments and final statuses enter the model as oracle records,
and the transport-level operations the code issues are collected in traces.
Machine integers are modelled as Int (no arithmetic ever overflows here:
stream ids only increment), byte payloads as List Nat.
-/

namespace GodotGrpc

/-- Opaque byte sequence (godot::PackedByteArray payload bytes). -/
abbrev Bytes := List Nat

/-- StreamType enum from src/grpc_stream.h lines 29-33. -/
inductive StreamType where
  | serverStreaming
  | clientStreaming
  | bidirectional
deriving DecidableEq, Repr

/-- A gRPC final status: numeric code plus message (grpc::Status).
Code 0 is OK; the defined codes are 0..16. -/
structure Status where
  code : Int
  message : String
deriving DecidableEq, Repr

/-- grpc::Status::ok() — true exactly when the code is OK (0). -/
def Status.isOk (st : Status) : Bool := st.code == 0

/-- grpc::StatusCode::INTERNAL numeric value. -/
def INTERNAL_CODE : Int := 13

/-- Godot Error enum values that status_map.cpp returns (identity of the
values is what matters; each constructor is one distinct godot::Error). -/
inductive GodotError where
  | ok
  | failed
  | errQueryFailed
  | errBug
  | errInvalidParameter
  | errTimeout
  | errDoesNotExist
  | errAlreadyExists
  | errUnauthorized
  | errOutOfMemory
  | errInvalidData
  | errBusy
  | errParameterRangeError
  | errUnavailable
  | errCantConnect
  | errFileCorrupt
deriving DecidableEq, Repr

/-- StatusMap::grpc_to_godot_error from src/util/status_map.cpp lines 47-86.
The C++ switch is over the int-backed grpc::StatusCode enum, so the domain is
modelled as Int: the defined codes are 0..16, anything else hits the default
case and returns godot::FAILED. -/
def grpc_to_godot_error (code : Int) : GodotError :=
  if code = 0 then .ok
  else if code = 1 then .errQueryFailed
  else if code = 2 then .errBug
  else if code = 3 then .errInvalidParameter
  else if code = 4 then .errTimeout
  else if code = 5 then .errDoesNotExist
  else if code = 6 then .errAlreadyExists
  else if code = 7 then .errUnauthorized
  else if code = 8 then .errOutOfMemory
  else if code = 9 then .errInvalidData
  else if code = 10 then .errBusy
  else if code = 11 then .errParameterRangeError
  else if code = 12 then .errUnavailable
  else if code = 13 then .errBug
  else if code = 14 then .errCantConnect
  else if code = 15 then .errFileCorrupt
  else if code = 16 then .errUnauthorized
  else .failed

/-- Modelled from the spec: the fifteen-value host-visible taxonomy of
section 7 (connection-unavailable, timeout, invalid-argument, not-found,
already-exists, permission-denied, resource-exhausted, failed-precondition,
aborted, out-of-range, unimplemented, internal/unknown, data-loss,
unauthenticated, ok), each label realized as the Godot error code the code
uses for it. Permission-denied and unauthenticated are both realized as
errUnauthorized, so the entry appears twice to keep fifteen entries.
This definition follows the spec words, for comparison with
grpc_to_godot_error, which follows the source. -/
def specTaxonomy : List GodotError :=
  [.errCantConnect, .errTimeout, .errInvalidParameter, .errDoesNotExist,
   .errAlreadyExists, .errUnauthorized, .errOutOfMemory, .errInvalidData,
   .errBusy, .errParameterRangeError, .errUnavailable, .errBug,
   .errFileCorrupt, .errUnauthorized, .ok]

/-- The GrpcStream engine state: the fields of the class in
src/grpc_stream.h lines 79-103 that the claims concern. The worker threads
themselves are modelled by the step functions below; readerSpawned and
writerSpawned record whether start() spawned them. -/
structure GrpcStream where
  streamId : Int
  streamType : StreamType
  method : String
  initialRequestBytes : Bytes
  active : Bool
  writesDone : Bool
  writeQueue : List Bytes
  writeQueueClosed : Bool
  readerSpawned : Bool
  writerSpawned : Bool
deriving DecidableEq, Repr

/-- Events observable from the engine's public operations: log lines
(message text elided, the level kept) and the condition-variable signal
send() issues to wake the writer thread. -/
inductive EngineEv where
  | logWarn
  | logErr
  | logDebug
  | logTrace
  | notifyWriter
deriving DecidableEq, Repr

/-- GrpcStream::send from src/grpc_stream.cpp lines 155-182.
Returns the bool result, the updated engine and the emitted events.
The four rejection tests appear in source order: inactive engine,
server-streaming type, WritesDone already issued, write queue closed. -/
def GrpcStream.send (s : GrpcStream) (messageBytes : Bytes) :
    Bool × GrpcStream × List EngineEv :=
  if s.active = false then
    (false, s, [.logWarn])
  else if s.streamType = .serverStreaming then
    (false, s, [.logErr])
  else if s.writesDone = true then
    (false, s, [.logWarn])
  else if s.writeQueueClosed = true then
    (false, s, [])
  else
    (true, { s with writeQueue := s.writeQueue ++ [messageBytes] },
     [.notifyWriter, .logTrace])

/-- GrpcStream::close_send from src/grpc_stream.cpp lines 184-197:
a logged no-op for server-streaming, otherwise marks the write queue closed
and notifies the writer. -/
def GrpcStream.close_send (s : GrpcStream) : GrpcStream × List EngineEv :=
  if s.streamType = .serverStreaming then
    (s, [.logDebug])
  else
    ({ s with writeQueueClosed := true }, [.logDebug, .notifyWriter])

/-- GrpcStream::cancel from src/grpc_stream.cpp lines 147-153: when active
(the context is always non-null: the facade constructs every engine with an
owned context), issues ClientContext::TryCancel — reported by the Bool —
and clears the active flag; otherwise a no-op. -/
def GrpcStream.cancel (s : GrpcStream) : GrpcStream × Bool :=
  if s.active = true then
    ({ s with active := false }, true)
  else
    (s, false)

/-- The transport-level operations start() and the worker loops issue
against the duplex call handle, in issue order. -/
inductive TransportOp where
  | startCall
  | writeOp (payload : Bytes)
  | writesDoneOp
  | finishOp
deriving DecidableEq, Repr

/-- Callback invocations the engine delivers to the facade. -/
inductive CallbackEv where
  | onMessage (id : Int) (data : Bytes)
  | onFinished (id : Int) (code : Int) (msg : String)
  | onError (id : Int) (code : Int) (msg : String)
deriving DecidableEq, Repr

/-- The transport-side outcomes start() observes: whether PrepareCall
returns a non-null handle, the ok flags of the completion-queue
acknowledgments for StartCall and the initial Write, and the final status
Finish retrieves on the failure path. The ok flag of the WritesDone
acknowledgment is ignored by the source (line 128-129), so it is absent. -/
structure StartOracle where
  prepareOk : Bool
  startOk : Bool
  writeOk : Bool
  finishStatus : Status
deriving DecidableEq, Repr

/-- String carried by the on-error callback when PrepareCall fails
(src/grpc_stream.cpp line 79). -/
def msgPrepareFailed : String := "Failed to prepare stream"

/-- String carried by the on-error callback when StartCall fails
(src/grpc_stream.cpp line 95). -/
def msgStartFailed : String := "Failed to start stream"

/-- GrpcStream::start from src/grpc_stream.cpp lines 59-145.
Returns the engine state after start() returns, the trace of transport
operations issued, and the callbacks invoked.
- Double-start guard: active_.exchange(true) returning true logs and
  returns with nothing done (lines 60-63).
- PrepareCall failure: on-error with INTERNAL, active cleared (76-83).
- StartCall issued; failed acknowledgment: on-error with INTERNAL, active
  cleared (86-99).
- Server-streaming with a nonempty initial payload: Write + ack; on failure
  Finish retrieves the final status, on-error carries it, active cleared
  (111-125); on success WritesDone + ack and writes_done_ set (127-129).
- Otherwise a nonempty initial payload is pushed onto the write queue
  (132-136).
- Reader thread spawned unconditionally; writer thread only for
  client-streaming and bidirectional (139-144). -/
def GrpcStream.start (s : GrpcStream) (o : StartOracle) :
    GrpcStream × List TransportOp × List CallbackEv :=
  if s.active = true then
    (s, [], [])
  else if o.prepareOk = false then
    ({ s with active := false }, [],
     [.onError s.streamId INTERNAL_CODE msgPrepareFailed])
  else if o.startOk = false then
    ({ s with active := false }, [.startCall],
     [.onError s.streamId INTERNAL_CODE msgStartFailed])
  else if s.streamType = .serverStreaming ∧ 0 < s.initialRequestBytes.length then
    if o.writeOk = false then
      ({ s with active := false },
       [.startCall, .writeOp s.initialRequestBytes, .finishOp],
       [.onError s.streamId o.finishStatus.code o.finishStatus.message])
    else
      ({ s with active := true, writesDone := true, readerSpawned := true },
       [.startCall, .writeOp s.initialRequestBytes, .writesDoneOp], [])
  else
    ({ s with
        active := true,
        writeQueue :=
          if 0 < s.initialRequestBytes.length then
            s.writeQueue ++ [s.initialRequestBytes]
          else s.writeQueue,
        readerSpawned := true,
        writerSpawned :=
          s.streamType = .clientStreaming ∨ s.streamType = .bidirectional },
     [.startCall], [])

/-- Interleaved execution of the public send/close_send operations against
one iteration of the writer thread loop: the alphabet of the interleaving. -/
inductive WriterEv where
  | sendEv (p : Bytes)
  | closeSendEv
  | writerStep
deriving DecidableEq, Repr

/-- World for the writer interleaving: the engine, the payloads written to
the transport so far (in write order), and the ghost list of payloads whose
send() was accepted (in acceptance order). -/
structure WriterWorld where
  engine : GrpcStream
  transportWrites : List Bytes
  accepted : List Bytes
deriving DecidableEq, Repr

/-- One interleaving step.
- sendEv runs GrpcStream::send; the accepted ghost list records the payload
  exactly when send returned true.
- closeSendEv runs GrpcStream::close_send.
- writerStep is one iteration of the writer thread body,
  src/grpc_stream.cpp lines 204-252: while active, take the front of the
  write queue under the mutex (lines 209-224) and write it to the transport
  (lines 238-242); an empty queue makes the iteration a wait (no effect
  here). -/
def writerWorldStep (w : WriterWorld) (e : WriterEv) : WriterWorld :=
  match e with
  | .sendEv p =>
      if (w.engine.send p).1 = true then
        { w with engine := (w.engine.send p).2.1,
                 accepted := w.accepted ++ [p] }
      else
        { w with engine := (w.engine.send p).2.1 }
  | .closeSendEv =>
      { w with engine := (w.engine.close_send).1 }
  | .writerStep =>
      if w.engine.active = true then
        match w.engine.writeQueue with
        | [] => w
        | p :: rest =>
            { w with
                engine := { w.engine with writeQueue := rest },
                transportWrites := w.transportWrites ++ [p] }
      else w

/-- Run an interleaving from a world. -/
def writerWorldRun (w : WriterWorld) (evs : List WriterEv) : WriterWorld :=
  evs.foldl writerWorldStep w

/-- GrpcChannelPool state: the channel and generic stub shared pointers and
the endpoint string (fields of the class defined in src/grpc_channel_pool.h,
implementation appended to src/grpc_client.h lines 222-302). An Option Unit
models null versus non-null. -/
structure GrpcChannelPool where
  channel : Option Unit
  stub : Option Unit
  endpoint : String
deriving DecidableEq, Repr

/-- Construction outcomes create_channel observes from the transport:
whether grpc::CreateCustomChannel returns non-null, and whether the generic
stub construction returns non-null (the source guards both). -/
structure PoolOracle where
  channelOk : Bool
  stubOk : Bool
deriving DecidableEq, Repr

/-- GrpcChannelPool::create_channel, src/grpc_client.h lines 222-280.
channel_ is assigned the construction result first (overwriting any
previous channel); a null result returns false with stub_ left untouched.
Then stub_ is assigned; a null stub resets channel_ and returns false.
On success both are installed and the endpoint recorded. -/
def GrpcChannelPool.create_channel (p : GrpcChannelPool) (endpoint : String)
    (o : PoolOracle) : Bool × GrpcChannelPool :=
  if o.channelOk = false then
    (false, { p with channel := none })
  else if o.stubOk = false then
    (false, { p with channel := none, stub := none })
  else
    (true, { channel := some (), stub := some (), endpoint := endpoint })

/-- GrpcChannelPool::close, src/grpc_client.h lines 282-287: releases stub
and channel and clears the endpoint. -/
def GrpcChannelPool.close (p : GrpcChannelPool) : GrpcChannelPool :=
  let _ := p
  { channel := none, stub := none, endpoint := "" }

/-- GrpcChannelPool::get_stub, src/grpc_client.h lines 289-291. -/
def GrpcChannelPool.get_stub (p : GrpcChannelPool) : Option Unit := p.stub

/-- GrpcClient facade state: the channel pool, the handle-to-engine
registry (active_streams_, a map modelled as an association list with
distinct keys) and the next stream id counter, src/grpc_client.h
lines 190-196. -/
structure GrpcClient where
  pool : GrpcChannelPool
  activeStreams : List (Int × GrpcStream)
  nextStreamId : Int
deriving DecidableEq, Repr

/-- Registry lookup: active_streams_.find(stream_id). -/
def findStream (c : GrpcClient) (id : Int) : Option GrpcStream :=
  (c.activeStreams.find? (fun e => e.1 == id)).map Prod.snd

/-- Registry update in place: the engine object a found iterator points to
is mutated through it->second. -/
def setStream (c : GrpcClient) (id : Int) (s : GrpcStream) : GrpcClient :=
  { c with activeStreams :=
      c.activeStreams.map (fun e => if e.1 == id then (e.1, s) else e) }

/-- Registry erase: active_streams_.erase. -/
def eraseStream (c : GrpcClient) (id : Int) : GrpcClient :=
  { c with activeStreams := c.activeStreams.filter (fun e => !(e.1 == id)) }

/-- Facade-level observable events: log lines (level kept, text elided),
the transport cancellation an engine issues, and the deferred signal
emissions marshalled to the host thread. -/
inductive ClientEv where
  | logWarn
  | logDebug
  | tryCancel (id : Int)
  | deferMessage (id : Int) (data : Bytes)
  | deferFinished (id : Int) (code : Int) (msg : String)
  | deferError (id : Int) (code : Int) (msg : String)
deriving DecidableEq, Repr

/-- GrpcClient::stream_send, src/grpc_client.cpp lines 234-245: under the
registry mutex, look the handle up; a miss logs a warning and returns
false; a hit delegates to the engine's send. -/
def GrpcClient.stream_send (c : GrpcClient) (id : Int) (msg : Bytes) :
    Bool × GrpcClient × List ClientEv :=
  match c.activeStreams.find? (fun e => e.1 == id) with
  | none => (false, c, [.logWarn])
  | some e =>
      let r := e.2.send msg
      (r.1, setStream c id r.2.1, [])

/-- GrpcClient::stream_close_send, src/grpc_client.cpp lines 247-257:
look up, delegate to close_send, warn on a miss. -/
def GrpcClient.stream_close_send (c : GrpcClient) (id : Int) :
    GrpcClient × List ClientEv :=
  match c.activeStreams.find? (fun e => e.1 == id) with
  | none => (c, [.logWarn])
  | some e => (setStream c id (e.2.close_send).1, [.logDebug])

/-- GrpcClient::stream_cancel, src/grpc_client.cpp lines 259-270: look up;
on a hit cancel the engine and erase the handle from the registry before
returning; on a miss log a warning. -/
def GrpcClient.stream_cancel (c : GrpcClient) (id : Int) :
    GrpcClient × List ClientEv :=
  match c.activeStreams.find? (fun e => e.1 == id) with
  | none => (c, [.logWarn])
  | some e =>
      let r := e.2.cancel
      (eraseStream c id,
       [ClientEv.logDebug] ++ (if r.2 = true then [ClientEv.tryCancel id] else []))

/-- GrpcClient::server_stream_cancel, src/grpc_client.cpp lines 272-283:
textually a second copy of stream_cancel with different log strings. -/
def GrpcClient.server_stream_cancel (c : GrpcClient) (id : Int) :
    GrpcClient × List ClientEv :=
  match c.activeStreams.find? (fun e => e.1 == id) with
  | none => (c, [.logWarn])
  | some e =>
      let r := e.2.cancel
      (eraseStream c id,
       [ClientEv.logDebug] ++ (if r.2 = true then [ClientEv.tryCancel id] else []))

/-- GrpcClient::on_stream_finished, src/grpc_client.cpp lines 355-367:
erase the handle under the registry mutex, then schedule the deferred
finished signal. -/
def GrpcClient.on_stream_finished (c : GrpcClient) (id : Int) (code : Int)
    (msg : String) : GrpcClient × List ClientEv :=
  (eraseStream c id, [.deferFinished id code msg])

/-- GrpcClient::on_stream_error, src/grpc_client.cpp lines 369-381:
erase the handle, then schedule the deferred error signal. -/
def GrpcClient.on_stream_error (c : GrpcClient) (id : Int) (code : Int)
    (msg : String) : GrpcClient × List ClientEv :=
  (eraseStream c id, [.deferError id code msg])

/-- The engine GrpcClient::start_stream constructs,
src/grpc_client.cpp lines 203-219: fresh flags, empty queue. -/
def mkStream (id : Int) (t : StreamType) (method : String) (req : Bytes) :
    GrpcStream :=
  { streamId := id, streamType := t, method := method,
    initialRequestBytes := req, active := false, writesDone := false,
    writeQueue := [], writeQueueClosed := false,
    readerSpawned := false, writerSpawned := false }

/-- GrpcClient::start_stream, src/grpc_client.cpp lines 172-232: with no
stub, log and return -1; otherwise allocate the next stream id under the
registry mutex (post-increment of next_stream_id_), construct the engine,
call start() on it, and register it — regardless of whether start()
reported an internal failure through the error callback. -/
def GrpcClient.start_stream (c : GrpcClient) (t : StreamType)
    (method : String) (req : Bytes) (o : StartOracle) : Int × GrpcClient :=
  match c.pool.get_stub with
  | none => (-1, c)
  | some _ =>
      let id := c.nextStreamId
      let started := (mkStream id t method req).start o
      (id, { c with
               nextStreamId := c.nextStreamId + 1,
               activeStreams := c.activeStreams ++ [(id, started.1)] })

/-- GrpcClient::close, src/grpc_client.cpp lines 64-76: cancel every
registered engine under the registry mutex, clear the registry, close the
channel. -/
def GrpcClient.close (c : GrpcClient) : GrpcClient :=
  { c with activeStreams := [], pool := c.pool.close }

/-- The freshly constructed client, src/grpc_client.cpp lines 12-16:
next_stream_id_ starts at 1, no channel, no streams. -/
def initialClient : GrpcClient :=
  { pool := { channel := none, stub := none, endpoint := "" },
    activeStreams := [], nextStreamId := 1 }

/-- Facade operations for the handle-allocation trace semantics. -/
inductive ClientOp where
  | connectOp (endpoint : String) (o : PoolOracle)
  | startStreamOp (t : StreamType) (method : String) (req : Bytes) (o : StartOracle)
  | sendOp (h : Int) (p : Bytes)
  | closeSendOp (h : Int)
  | cancelOp (h : Int)
  | serverCancelOp (h : Int)
  | finishedOp (h : Int) (code : Int) (msg : String)
  | erroredOp (h : Int) (code : Int) (msg : String)
  | closeOp
deriving Repr

/-- One facade operation applied to a client paired with the ghost list of
handles the start operations returned so far (in return order). -/
def clientStep (st : GrpcClient × List Int) (op : ClientOp) :
    GrpcClient × List Int :=
  match op with
  | .connectOp e o =>
      ({ st.1 with pool := (st.1.pool.create_channel e o).2 }, st.2)
  | .startStreamOp t m req o =>
      let r := st.1.start_stream t m req o
      (r.2, st.2 ++ [r.1])
  | .sendOp h p => ((st.1.stream_send h p).2.1, st.2)
  | .closeSendOp h => ((st.1.stream_close_send h).1, st.2)
  | .cancelOp h => ((st.1.stream_cancel h).1, st.2)
  | .serverCancelOp h => ((st.1.server_stream_cancel h).1, st.2)
  | .finishedOp h code m => ((st.1.on_stream_finished h code m).1, st.2)
  | .erroredOp h code m => ((st.1.on_stream_error h code m).1, st.2)
  | .closeOp => (st.1.close, st.2)

/-- Run a list of facade operations from the freshly constructed client. -/
def clientRun (ops : List ClientOp) : GrpcClient × List Int :=
  ops.foldl clientStep (initialClient, [])

/-- The transport-side outcomes of one unary call: the ok flag of the
single completion-queue acknowledgment, the final status, and the response
wire-buffer slices. -/
structure UnaryOracle where
  completionOk : Bool
  status : Status
  responseSlices : List Bytes
deriving DecidableEq, Repr

/-- GrpcClient::unary, src/grpc_client.cpp lines 82-148. Result is the
returned byte sequence paired with whether an error was logged/pushed.
- No stub: immediate empty return with a logged error (90-95).
- The call is issued against a throwaway completion queue and the single
  tag awaited; a failed acknowledgment or a non-OK status logs a formatted
  error and returns empty (127-132).
- Success concatenates the response wire-buffer slices in order (134-147). -/
def GrpcClient.unary (c : GrpcClient) (method : String) (req : Bytes)
    (o : UnaryOracle) : Bytes × Bool :=
  let _ := method
  let _ := req
  match c.pool.get_stub with
  | none => ([], true)
  | some _ =>
      if o.completionOk = false ∨ o.status.isOk = false then
        ([], true)
      else
        (o.responseSlices.flatten, false)

/-- A bidirectional engine as it looks right after a successful start():
active, running reader and writer, nothing queued. -/
def sampleBidiStream : GrpcStream :=
  { streamId := 2, streamType := .bidirectional, method := "/pkg.Svc/Chat",
    initialRequestBytes := [], active := true, writesDone := false,
    writeQueue := [], writeQueueClosed := false,
    readerSpawned := true, writerSpawned := true }

/-- A server-streaming engine before start(), with a nonempty initial
request payload. -/
def sampleServerStream : GrpcStream :=
  { streamId := 3, streamType := .serverStreaming, method := "/pkg.Svc/Sub",
    initialRequestBytes := [42, 7], active := false, writesDone := false,
    writeQueue := [], writeQueueClosed := false,
    readerSpawned := false, writerSpawned := false }

/-- A server-streaming engine before start(), with an empty initial
request payload. -/
def emptyServerStream : GrpcStream :=
  { streamId := 7, streamType := .serverStreaming, method := "/pkg.Svc/Sub",
    initialRequestBytes := [], active := false, writesDone := false,
    writeQueue := [], writeQueueClosed := false,
    readerSpawned := false, writerSpawned := false }

/-- A transport that acknowledges every operation successfully. -/
def allOkOracle : StartOracle :=
  { prepareOk := true, startOk := true, writeOk := true,
    finishStatus := { code := 0, message := "" } }

/-- C2: send(payload) returns rejected (false) exactly when the engine is
inactive, or the stream type is server-streaming, or writes have been
declared done (writes_done_ set or the outgoing queue closed); otherwise it
appends the payload to the outgoing FIFO queue, signals the writer's
condition variable, and returns accepted (true). -/
theorem send_spec (s : GrpcStream) (p : Bytes) :
    ((s.send p).1 = false ↔
      (s.active = false ∨ s.streamType = .serverStreaming ∨
       s.writesDone = true ∨ s.writeQueueClosed = true))
    ∧ ((s.send p).1 = true →
        (s.send p).2.1 = { s with writeQueue := s.writeQueue ++ [p] }
        ∧ EngineEv.notifyWriter ∈ (s.send p).2.2) := by
  unfold GrpcStream.send
  split_ifs with h1 h2 h3 h4 <;> simp_all

/-- Witness for send_spec at a concrete accepting engine and payload. -/
theorem send_spec_witness :
    ((sampleBidiStream.send [1, 2]).1 = false ↔
      (sampleBidiStream.active = false ∨
       sampleBidiStream.streamType = .serverStreaming ∨
       sampleBidiStream.writesDone = true ∨
       sampleBidiStream.writeQueueClosed = true))
    ∧ ((sampleBidiStream.send [1, 2]).1 = true →
        (sampleBidiStream.send [1, 2]).2.1 =
          { sampleBidiStream with
              writeQueue := sampleBidiStream.writeQueue ++ [[1, 2]] }
        ∧ EngineEv.notifyWriter ∈ (sampleBidiStream.send [1, 2]).2.2) :=
  send_spec sampleBidiStream [1, 2]

/-- C6: calling start() on an already-started engine is a no-op: the atomic
exchange on the active flag makes the second call return with the engine
state unchanged, no transport operations issued and no callbacks fired
(hence no duplicate reader or writer threads). -/
theorem start_double_noop (s : GrpcStream) (o : StartOracle)
    (h : s.active = true) : s.start o = (s, [], []) := by
  unfold GrpcStream.start
  simp [h]

/-- Witness for start_double_noop on a concrete active engine. -/
theorem start_double_noop_witness :
    sampleBidiStream.start allOkOracle = (sampleBidiStream, [], []) :=
  start_double_noop sampleBidiStream allOkOracle rfl

/-- C4 (amended): for a server-streaming engine with a NONEMPTY initial
request payload, start() after the call-start acknowledgment writes the
initial payload, then signals WritesDone and sets the writes-closed flag,
all before the reader thread is spawned and with no writer thread; on
write failure it issues Finish, invokes on-error with the retrieved final
status, and returns with the engine inactive. -/
theorem server_streaming_start_spec (s : GrpcStream) (o : StartOracle)
    (ha : s.active = false) (ht : s.streamType = .serverStreaming)
    (hr : s.initialRequestBytes ≠ []) (hp : o.prepareOk = true)
    (hs : o.startOk = true) :
    (o.writeOk = true →
      s.start o =
        ({ s with active := true, writesDone := true, readerSpawned := true },
         [.startCall, .writeOp s.initialRequestBytes, .writesDoneOp], []))
    ∧ (o.writeOk = false →
      s.start o =
        ({ s with active := false },
         [.startCall, .writeOp s.initialRequestBytes, .finishOp],
         [.onError s.streamId o.finishStatus.code o.finishStatus.message])) := by
  have hlen : 0 < s.initialRequestBytes.length := List.length_pos.mpr hr
  unfold GrpcStream.start
  constructor <;> intro hw <;> simp [ha, ht, hp, hs, hw, hlen]

/-- Witness for server_streaming_start_spec: a concrete engine with payload
[42, 7] against an all-ok transport. -/
theorem server_streaming_start_spec_witness :
    sampleServerStream.start allOkOracle =
      ({ sampleServerStream with
           active := true, writesDone := true, readerSpawned := true },
       [.startCall, .writeOp sampleServerStream.initialRequestBytes,
        .writesDoneOp], []) :=
  (server_streaming_start_spec sampleServerStream allOkOracle rfl rfl
    (by decide) rfl rfl).1 rfl

/-- C4 counterexample: a server-streaming engine whose initial request
payload is empty. start() against an all-ok transport issues only the
StartCall — no write and no WritesDone — and leaves the writes-closed flag
false, contradicting the claim that every server-streaming start writes the
initial payload and sets the writes-closed flag before the reader begins. -/
theorem server_streaming_start_empty_payload :
    (emptyServerStream.start allOkOracle).2.1 = [TransportOp.startCall]
    ∧ (emptyServerStream.start allOkOracle).1.writesDone = false
    ∧ (emptyServerStream.start allOkOracle).1.readerSpawned = true := by
  refine ⟨rfl, rfl, rfl⟩

/-- C7 counterexample: the transport code CANCELLED (1) is mapped to
godot::ERR_QUERY_FAILED, which is not one of the fifteen taxonomy values of
the spec and is also not the generic FAILED bucket, so the translator's
image is not contained in the fifteen-value taxonomy. -/
theorem grpc_cancelled_outside_taxonomy :
    grpc_to_godot_error 1 = GodotError.errQueryFailed
    ∧ GodotError.errQueryFailed ∉ specTaxonomy
    ∧ grpc_to_godot_error 1 ≠ GodotError.failed := by decide

/-- C7 (amended): the status translator is a total function over the
int-backed status code enumeration and never throws; every defined code
other than CANCELLED maps to exactly one value of the fifteen-value
taxonomy; CANCELLED maps to the separate query-failed code; every
unmapped/future code maps to the generic FAILED kind. -/
theorem grpc_to_godot_error_spec (code : Int) :
    (0 ≤ code → code ≤ 16 → code ≠ 1 →
      grpc_to_godot_error code ∈ specTaxonomy)
    ∧ grpc_to_godot_error 1 = GodotError.errQueryFailed
    ∧ ((code < 0 ∨ 16 < code) → grpc_to_godot_error code = GodotError.failed) := by
  refine ⟨?_, by decide, ?_⟩
  · intro h0 h16 h1
    interval_cases code <;> first | decide | omega
  · intro h
    unfold grpc_to_godot_error
    have hne0 : ¬ code = 0 := by omega
    have hne1 : ¬ code = 1 := by omega
    have hne2 : ¬ code = 2 := by omega
    have hne3 : ¬ code = 3 := by omega
    have hne4 : ¬ code = 4 := by omega
    have hne5 : ¬ code = 5 := by omega
    have hne6 : ¬ code = 6 := by omega
    have hne7 : ¬ code = 7 := by omega
    have hne8 : ¬ code = 8 := by omega
    have hne9 : ¬ code = 9 := by omega
    have hne10 : ¬ code = 10 := by omega
    have hne11 : ¬ code = 11 := by omega
    have hne12 : ¬ code = 12 := by omega
    have hne13 : ¬ code = 13 := by omega
    have hne14 : ¬ code = 14 := by omega
    have hne15 : ¬ code = 15 := by omega
    have hne16 : ¬ code = 16 := by omega
    rw [if_neg hne0, if_neg hne1, if_neg hne2, if_neg hne3, if_neg hne4,
        if_neg hne5, if_neg hne6, if_neg hne7, if_neg hne8, if_neg hne9,
        if_neg hne10, if_neg hne11, if_neg hne12, if_neg hne13,
        if_neg hne14, if_neg hne15, if_neg hne16]

/-- Witness for grpc_to_godot_error_spec: UNAVAILABLE (14) lands in the
taxonomy (as connection-unavailable). -/
theorem grpc_to_godot_error_spec_witness :
    grpc_to_godot_error 14 ∈ specTaxonomy :=
  (grpc_to_godot_error_spec 14).1 (by decide) (by decide) (by decide)

/-- An accepted send leaves every field unchanged except the queue, which
gains the payload at the back. -/
lemma send_true_state (s : GrpcStream) (p : Bytes)
    (h : (s.send p).1 = true) :
    (s.send p).2.1 = { s with writeQueue := s.writeQueue ++ [p] } := by
  unfold GrpcStream.send at h ⊢
  split_ifs at h ⊢
  simp_all

/-- A rejected send leaves the engine unchanged. -/
lemma send_false_state (s : GrpcStream) (p : Bytes)
    (h : (s.send p).1 = false) :
    (s.send p).2.1 = s := by
  unfold GrpcStream.send at h ⊢
  split_ifs at h ⊢ <;> simp_all

/-- One interleaving step preserves the queue-conservation invariant:
the transport writes followed by the still-queued payloads equal the
initial queue contents followed by the accepted sends in order. -/
lemma writerWorldStep_inv (pre : List Bytes) (w : WriterWorld) (e : WriterEv)
    (h : w.transportWrites ++ w.engine.writeQueue = pre ++ w.accepted) :
    (writerWorldStep w e).transportWrites
        ++ (writerWorldStep w e).engine.writeQueue
      = pre ++ (writerWorldStep w e).accepted := by
  cases e with
  | sendEv p =>
      by_cases hb : (w.engine.send p).1 = true
      · have hs := send_true_state w.engine p hb
        simp only [writerWorldStep, hb, if_true]
        rw [hs]
        simp only []
        rw [← List.append_assoc, ← List.append_assoc, h]
      · have hb2 : (w.engine.send p).1 = false := by
          revert hb; cases (w.engine.send p).1 <;> simp
        have hs := send_false_state w.engine p hb2
        simp only [writerWorldStep, hb, if_false]
        rw [hs]
        exact h
  | closeSendEv =>
      unfold writerWorldStep GrpcStream.close_send
      split_ifs <;> simpa using h
  | writerStep =>
      by_cases ha : w.engine.active = true
      · cases hq : w.engine.writeQueue with
        | nil =>
            simp only [writerWorldStep, ha, if_true, hq]
            rw [hq] at h
            exact h
        | cons p rest =>
            simp only [writerWorldStep, ha, if_true, hq]
            rw [hq] at h
            rw [List.append_assoc, List.singleton_append]
            exact h
      · simp only [writerWorldStep, ha, if_false]
        exact h

/-- The invariant of writerWorldStep_inv holds along any interleaving. -/
lemma writerWorldRun_inv (pre : List Bytes) (evs : List WriterEv) :
    ∀ w : WriterWorld,
      w.transportWrites ++ w.engine.writeQueue = pre ++ w.accepted →
      (writerWorldRun w evs).transportWrites
          ++ (writerWorldRun w evs).engine.writeQueue
        = pre ++ (writerWorldRun w evs).accepted := by
  induction evs with
  | nil =>
      intro w h
      simpa [writerWorldRun] using h
  | cons e rest ih =>
      intro w h
      have h1 := writerWorldStep_inv pre w e h
      simpa [writerWorldRun] using ih (writerWorldStep w e) h1

/-- C1: for a client-streaming or bidirectional engine started with an
empty queue, along every interleaving of send()/close_send() calls with
writer-thread iterations, the payloads written to the transport followed by
the payloads still queued equal the accepted sends in acceptance order.
Hence the transport writes are always the first accepted sends in send
order, and once the single writer has drained the queue the transport has
received exactly the accepted sends in FIFO order. -/
theorem writer_fifo (s : GrpcStream) (evs : List WriterEv)
    (hq : s.writeQueue = [])
    (ht : s.streamType = .clientStreaming ∨ s.streamType = .bidirectional) :
    ((writerWorldRun ⟨s, [], []⟩ evs).transportWrites
        ++ (writerWorldRun ⟨s, [], []⟩ evs).engine.writeQueue
      = (writerWorldRun ⟨s, [], []⟩ evs).accepted)
    ∧ ((writerWorldRun ⟨s, [], []⟩ evs).accepted.take
         (writerWorldRun ⟨s, [], []⟩ evs).transportWrites.length
        = (writerWorldRun ⟨s, [], []⟩ evs).transportWrites)
    ∧ ((writerWorldRun ⟨s, [], []⟩ evs).engine.writeQueue = [] →
        (writerWorldRun ⟨s, [], []⟩ evs).transportWrites
          = (writerWorldRun ⟨s, [], []⟩ evs).accepted) := by
  have hok := ht
  have h0 : ([] : List Bytes) ++ s.writeQueue
      = ([] : List Bytes) ++ ([] : List Bytes) := by simp [hq]
  have h := writerWorldRun_inv [] evs ⟨s, [], []⟩ h0
  simp only [List.nil_append] at h
  refine ⟨h, ?_, ?_⟩
  · rw [← h, List.take_left]
  · intro hdrained
    rw [hdrained, List.append_nil] at h
    exact h

/-- The interleaving of the client-streaming FIFO scenario: two accepted
sends, one write, close_send, one more write. -/
def fifoEvs : List WriterEv :=
  [.sendEv [1], .sendEv [2], .writerStep, .closeSendEv, .writerStep]

/-- Witness for writer_fifo on a concrete bidirectional engine and
interleaving. -/
theorem writer_fifo_witness :
    ((writerWorldRun ⟨sampleBidiStream, [], []⟩ fifoEvs).transportWrites
        ++ (writerWorldRun ⟨sampleBidiStream, [], []⟩ fifoEvs).engine.writeQueue
      = (writerWorldRun ⟨sampleBidiStream, [], []⟩ fifoEvs).accepted)
    ∧ ((writerWorldRun ⟨sampleBidiStream, [], []⟩ fifoEvs).accepted.take
         (writerWorldRun ⟨sampleBidiStream, [], []⟩ fifoEvs).transportWrites.length
        = (writerWorldRun ⟨sampleBidiStream, [], []⟩ fifoEvs).transportWrites)
    ∧ ((writerWorldRun ⟨sampleBidiStream, [], []⟩ fifoEvs).engine.writeQueue = [] →
        (writerWorldRun ⟨sampleBidiStream, [], []⟩ fifoEvs).transportWrites
          = (writerWorldRun ⟨sampleBidiStream, [], []⟩ fifoEvs).accepted) :=
  writer_fifo sampleBidiStream fifoEvs rfl (Or.inr rfl)

/-- Looking a key up after filtering it out of the registry fails. -/
lemma find?_filter_ne (l : List (Int × GrpcStream)) (id : Int) :
    (l.filter (fun e => !(e.1 == id))).find? (fun e => e.1 == id) = none := by
  rw [List.find?_eq_none]
  intro x hx
  have hmem := List.of_mem_filter hx
  simp_all

/-- After eraseStream, the erased handle is absent from the registry. -/
lemma findStream_erase (c : GrpcClient) (id : Int) :
    findStream (eraseStream c id) id = none := by
  unfold findStream eraseStream
  simp [find?_filter_ne]

/-- findStream misses exactly when the underlying find? misses. -/
lemma findStream_none_iff (c : GrpcClient) (id : Int) :
    findStream c id = none ↔
      c.activeStreams.find? (fun e => e.1 == id) = none := by
  unfold findStream
  cases c.activeStreams.find? (fun e => e.1 == id) <;> simp

/-- C3: after the finished or error callback has deregistered handle H, or
after stream_cancel(H) has run (removal happens in the call itself), the
registry lookup for H fails; and on any client whose registry misses H,
stream_send(H) returns false with the state unchanged, while
stream_close_send(H) and stream_cancel(H) are logged no-ops. -/
theorem use_after_end_safety (c : GrpcClient) (id : Int) (code : Int)
    (m : String) (p : Bytes) :
    findStream (c.on_stream_finished id code m).1 id = none
    ∧ findStream (c.on_stream_error id code m).1 id = none
    ∧ findStream (c.stream_cancel id).1 id = none
    ∧ (∀ d : GrpcClient, findStream d id = none →
        d.stream_send id p = (false, d, [.logWarn])
        ∧ d.stream_close_send id = (d, [.logWarn])
        ∧ d.stream_cancel id = (d, [.logWarn])) := by
  refine ⟨?_, ?_, ?_, ?_⟩
  · exact findStream_erase c id
  · exact findStream_erase c id
  · unfold GrpcClient.stream_cancel
    cases hf : c.activeStreams.find? (fun e => e.1 == id) with
    | none =>
        simpa [findStream_none_iff] using hf
    | some e =>
        exact findStream_erase c id
  · intro d hd
    have hf := (findStream_none_iff d id).mp hd
    unfold GrpcClient.stream_send GrpcClient.stream_close_send
      GrpcClient.stream_cancel
    rw [hf]
    exact ⟨rfl, rfl, rfl⟩

/-- A client with one registered active stream, for the witnesses. -/
def busyClient : GrpcClient :=
  { pool := { channel := some (), stub := some (), endpoint := "localhost:50051" },
    activeStreams := [(2, sampleBidiStream)], nextStreamId := 3 }

/-- Witness for use_after_end_safety at a concrete client and handle. -/
theorem use_after_end_safety_witness :
    findStream (busyClient.on_stream_finished 2 0 "").1 2 = none
    ∧ findStream (busyClient.on_stream_error 2 13 "").1 2 = none
    ∧ findStream (busyClient.stream_cancel 2).1 2 = none
    ∧ (∀ d : GrpcClient, findStream d 2 = none →
        d.stream_send 2 [9] = (false, d, [.logWarn])
        ∧ d.stream_close_send 2 = (d, [.logWarn])
        ∧ d.stream_cancel 2 = (d, [.logWarn])) :=
  use_after_end_safety busyClient 2 0 "" [9]

/-- C10: server_stream_cancel and stream_cancel are observationally
equivalent: the same function of the registry state (the model elides the
differing log text, keeping the level). On a miss both warn and leave the
client unchanged; on a hit both cancel the engine and erase the handle
before returning. -/
theorem cancel_variants_equiv (c : GrpcClient) (id : Int) :
    c.server_stream_cancel id = c.stream_cancel id
    ∧ (ClientEv.logWarn ∈ (c.stream_cancel id).2 ↔ findStream c id = none)
    ∧ (findStream c id = none → (c.stream_cancel id).1 = c)
    ∧ (findStream c id ≠ none → findStream (c.stream_cancel id).1 id = none) := by
  refine ⟨rfl, ?_, ?_, ?_⟩
  · unfold GrpcClient.stream_cancel
    cases hf : c.activeStreams.find? (fun e => e.1 == id) with
    | none => simp [findStream_none_iff, hf]
    | some e =>
        rw [findStream_none_iff]
        by_cases hc : e.2.cancel.2 = true <;> simp [hc, hf]
  · intro hd
    have hf := (findStream_none_iff c id).mp hd
    unfold GrpcClient.stream_cancel
    rw [hf]
  · intro hd
    unfold GrpcClient.stream_cancel
    cases hf : c.activeStreams.find? (fun e => e.1 == id) with
    | none =>
        exact absurd ((findStream_none_iff c id).mpr hf) hd
    | some e =>
        exact findStream_erase c id

/-- Witness for cancel_variants_equiv at a concrete client and handle. -/
theorem cancel_variants_equiv_witness :
    busyClient.server_stream_cancel 2 = busyClient.stream_cancel 2
    ∧ (ClientEv.logWarn ∈ (busyClient.stream_cancel 2).2 ↔
        findStream busyClient 2 = none)
    ∧ (findStream busyClient 2 = none → (busyClient.stream_cancel 2).1 = busyClient)
    ∧ (findStream busyClient 2 ≠ none →
        findStream (busyClient.stream_cancel 2).1 2 = none) :=
  cancel_variants_equiv busyClient 2

/-- C5: unary returns the empty byte sequence with a logged error in every
failure case — immediately when no stub exists, and when the completion tag
was unsuccessful or the final status is non-OK; on success it returns the
in-order concatenation of the response wire-buffer slices. An empty return
value therefore cannot be distinguished from a failed call: it arises
exactly when the call failed or the concatenated response is itself empty. -/
theorem unary_spec (c : GrpcClient) (m : String) (req : Bytes)
    (o : UnaryOracle) :
    (c.pool.get_stub = none → c.unary m req o = ([], true))
    ∧ (o.completionOk = false ∨ o.status.code ≠ 0 → c.unary m req o = ([], true))
    ∧ (c.pool.get_stub ≠ none → o.completionOk = true → o.status.code = 0 →
        c.unary m req o = (o.responseSlices.flatten, false))
    ∧ ((c.unary m req o).1 = [] ↔
        c.pool.get_stub = none ∨ o.completionOk = false ∨ o.status.code ≠ 0
        ∨ o.responseSlices.flatten = []) := by
  cases hstub : c.pool.get_stub with
  | none =>
      refine ⟨fun _ => ?_, fun _ => ?_, fun hne => absurd rfl hne, ?_⟩
      · simp [GrpcClient.unary, hstub]
      · simp [GrpcClient.unary, hstub]
      · simp [GrpcClient.unary, hstub]
  | some u =>
      by_cases hok : o.completionOk = true
      · by_cases hst : o.status.code = 0
        · refine ⟨fun hn => Option.noConfusion hn, fun hfail => ?_,
            fun _ _ _ => ?_, ?_⟩
          · rcases hfail with hfail | hfail
            · rw [hok] at hfail; exact absurd hfail (by simp)
            · exact absurd hst hfail
          · simp [GrpcClient.unary, hstub, Status.isOk, hok, hst]
          · simp [GrpcClient.unary, hstub, Status.isOk, hok, hst]
        · refine ⟨fun hn => Option.noConfusion hn, fun _ => ?_,
            fun _ _ hz => absurd hz hst, ?_⟩
          · simp [GrpcClient.unary, hstub, Status.isOk, hst]
          · simp [GrpcClient.unary, hstub, Status.isOk, hst]
      · have hok2 : o.completionOk = false := by
          revert hok; cases o.completionOk <;> simp
        refine ⟨fun hn => Option.noConfusion hn, fun _ => ?_,
          fun _ hc => absurd hc hok, ?_⟩
        · simp [GrpcClient.unary, hstub, hok2]
        · simp [GrpcClient.unary, hstub, hok2]

/-- A response of two wire-buffer slices with a successful status. -/
def okUnaryOracle : UnaryOracle :=
  { completionOk := true, status := { code := 0, message := "" },
    responseSlices := [[104, 105], [33]] }

/-- Witness for unary_spec: a connected client and an OK response whose two
slices concatenate in order. -/
theorem unary_spec_witness :
    busyClient.unary ("/pkg.Svc/Get") [1] okUnaryOracle = ([104, 105, 33], false) := by
  have h := (unary_spec busyClient ("/pkg.Svc/Get") [1] okUnaryOracle).2.2.1
    (by simp [busyClient, GrpcChannelPool.get_stub]) rfl rfl
  simpa [okUnaryOracle] using h

/-- A pool with a channel and stub installed, as after a successful
create_channel. -/
def connectedPool : GrpcChannelPool :=
  { channel := some (), stub := some (), endpoint := "localhost:50051" }

/-- C9 counterexample: on a pool holding a previously created channel and
stub, a create_channel whose channel construction yields null returns false
and clears the channel — but the previously installed stub remains held, so
the failure does leave a partially-installed channel/stub pair (a stub
without a channel), contrary to the claim's parenthetical. -/
theorem create_channel_stale_stub :
    ((connectedPool.create_channel ("other:1")
        { channelOk := false, stubOk := true }).1 = false)
    ∧ ((connectedPool.create_channel ("other:1")
        { channelOk := false, stubOk := true }).2.channel = none)
    ∧ ((connectedPool.create_channel ("other:1")
        { channelOk := false, stubOk := true }).2.stub = some ()) :=
  ⟨rfl, rfl, rfl⟩

/-- C9 (amended): whenever create_channel returns false the pool holds no
channel; when the failure was the stub construction the stub is cleared as
well, but when the channel construction itself failed the previously held
stub (if any) survives untouched. -/
theorem create_channel_failure_spec (p : GrpcChannelPool) (e : String)
    (o : PoolOracle) (h : (p.create_channel e o).1 = false) :
    (p.create_channel e o).2.channel = none
    ∧ (o.channelOk = false → (p.create_channel e o).2.stub = p.stub)
    ∧ (o.channelOk = true → (p.create_channel e o).2.stub = none) := by
  unfold GrpcChannelPool.create_channel at h ⊢
  by_cases hc : o.channelOk = false
  · simp [hc]
  · have hc2 : o.channelOk = true := by
      revert hc; cases o.channelOk <;> simp
    by_cases hs : o.stubOk = false
    · simp [hc2, hs]
    · have hs2 : o.stubOk = true := by
        revert hs; cases o.stubOk <;> simp
    -- with both constructions succeeding the call returns true: h is absurd
      rw [hc2, hs2] at h
      simp at h

/-- Witness for create_channel_failure_spec: stub construction fails on a
previously connected pool — both references end up cleared. -/
theorem create_channel_failure_spec_witness :
    ((connectedPool.create_channel ("other:1")
        { channelOk := true, stubOk := false }).2.channel = none)
    ∧ ((connectedPool.create_channel ("other:1")
        { channelOk := true, stubOk := false }).2.stub = none) := by
  have h := create_channel_failure_spec connectedPool ("other:1")
    { channelOk := true, stubOk := false } rfl
  exact ⟨h.1, h.2.2 rfl⟩

/-- The handles currently registered in the facade's stream map. -/
def registryKeys (c : GrpcClient) : List Int := c.activeStreams.map Prod.fst

/-- An in-place engine update keeps the key list unchanged. -/
lemma keys_set (l : List (Int × GrpcStream)) (id : Int) (s : GrpcStream) :
    (l.map (fun e => if e.1 == id then (e.1, s) else e)).map Prod.fst
      = l.map Prod.fst := by
  induction l with
  | nil => rfl
  | cons a t ih =>
      simp only [List.map_cons]
      rw [ih]
      by_cases h : (a.1 == id) = true
      · simp [h]
      · simp [h]

/-- setStream keeps the registered handles unchanged. -/
lemma registryKeys_set (c : GrpcClient) (id : Int) (s : GrpcStream) :
    registryKeys (setStream c id s) = registryKeys c := by
  unfold registryKeys setStream
  exact keys_set c.activeStreams id s

/-- eraseStream only removes handles. -/
lemma registryKeys_erase_sublist (c : GrpcClient) (id : Int) :
    (registryKeys (eraseStream c id)).Sublist (registryKeys c) := by
  unfold registryKeys eraseStream
  exact (List.filter_sublist _).map Prod.fst

/-- start_stream with no stub installed fails with -1 and changes nothing. -/
lemma start_stream_none (c : GrpcClient) (t : StreamType) (m : String)
    (req : Bytes) (o : StartOracle) (h : c.pool.get_stub = none) :
    c.start_stream t m req o = (-1, c) := by
  unfold GrpcClient.start_stream
  simp [h]

/-- start_stream with a stub allocates the current counter value as the
handle, increments the counter and registers the started engine. -/
lemma start_stream_some (c : GrpcClient) (u : Unit) (t : StreamType)
    (m : String) (req : Bytes) (o : StartOracle)
    (h : c.pool.get_stub = some u) :
    c.start_stream t m req o =
      (c.nextStreamId,
       { c with
           nextStreamId := c.nextStreamId + 1,
           activeStreams := c.activeStreams ++
             [(c.nextStreamId, ((mkStream c.nextStreamId t m req).start o).1)] }) := by
  unfold GrpcClient.start_stream
  simp [h]

/-- Reduction of stream_send on a registry miss. -/
lemma stream_send_missing (c : GrpcClient) (id : Int) (p : Bytes)
    (h : c.activeStreams.find? (fun x => x.1 == id) = none) :
    c.stream_send id p = (false, c, [.logWarn]) := by
  unfold GrpcClient.stream_send
  simp [h]

/-- Reduction of stream_send on a registry hit. -/
lemma stream_send_found (c : GrpcClient) (id : Int) (p : Bytes)
    (e : Int × GrpcStream)
    (h : c.activeStreams.find? (fun x => x.1 == id) = some e) :
    c.stream_send id p = ((e.2.send p).1, setStream c id (e.2.send p).2.1, []) := by
  unfold GrpcClient.stream_send
  simp [h]

/-- Reduction of stream_close_send on a registry miss. -/
lemma stream_close_send_missing (c : GrpcClient) (id : Int)
    (h : c.activeStreams.find? (fun x => x.1 == id) = none) :
    c.stream_close_send id = (c, [.logWarn]) := by
  unfold GrpcClient.stream_close_send
  simp [h]

/-- Reduction of stream_close_send on a registry hit. -/
lemma stream_close_send_found (c : GrpcClient) (id : Int)
    (e : Int × GrpcStream)
    (h : c.activeStreams.find? (fun x => x.1 == id) = some e) :
    c.stream_close_send id = (setStream c id (e.2.close_send).1, [.logDebug]) := by
  unfold GrpcClient.stream_close_send
  simp [h]

/-- Reduction of stream_cancel on a registry miss. -/
lemma stream_cancel_missing (c : GrpcClient) (id : Int)
    (h : c.activeStreams.find? (fun x => x.1 == id) = none) :
    c.stream_cancel id = (c, [.logWarn]) := by
  unfold GrpcClient.stream_cancel
  simp [h]

/-- Reduction of stream_cancel on a registry hit. -/
lemma stream_cancel_found (c : GrpcClient) (id : Int) (e : Int × GrpcStream)
    (h : c.activeStreams.find? (fun x => x.1 == id) = some e) :
    (c.stream_cancel id).1 = eraseStream c id := by
  unfold GrpcClient.stream_cancel
  simp [h]

/-- Core of the run invariant, phrased over the registered key list, the
counter value and the returned-handle list. -/
def InvCore (keys : List Int) (nextId : Int) (rets : List Int) : Prop :=
  1 ≤ nextId
  ∧ (∀ k ∈ keys, 0 < k ∧ k < nextId)
  ∧ (∀ r ∈ rets, (r = -1 ∨ 0 < r) ∧ r < nextId)
  ∧ keys.Nodup
  ∧ List.Pairwise (fun a b => 0 < b → a < b) rets

/-- Invariant of the facade run: the counter stays at least 1, every
registered handle and every successfully returned handle is positive and
below the counter, registered handles are distinct, and every successful
return strictly exceeds all earlier returns. -/
def ClientInv (c : GrpcClient) (rets : List Int) : Prop :=
  InvCore (registryKeys c) c.nextStreamId rets

/-- A failed start (returning -1) preserves the core invariant. -/
lemma invCore_fail (keys : List Int) (n : Int) (rets : List Int)
    (h : InvCore keys n rets) : InvCore keys n (rets ++ [-1]) := by
  obtain ⟨h1, h2, h3, h4, h5⟩ := h
  refine ⟨h1, h2, ?_, h4, ?_⟩
  · intro r hr
    rcases List.mem_append.mp hr with hr | hr
    · exact h3 r hr
    · simp only [List.mem_singleton] at hr
      subst hr
      exact ⟨Or.inl rfl, by omega⟩
  · rw [List.pairwise_append]
    refine ⟨h5, List.pairwise_singleton _ _, ?_⟩
    intro a ha b hb
    simp only [List.mem_singleton] at hb
    subst hb
    intro hpos
    omega

/-- Allocating the counter value as a fresh handle preserves the core
invariant. -/
lemma invCore_alloc (keys : List Int) (n : Int) (rets : List Int)
    (h : InvCore keys n rets) : InvCore (keys ++ [n]) (n + 1) (rets ++ [n]) := by
  obtain ⟨h1, h2, h3, h4, h5⟩ := h
  refine ⟨by omega, ?_, ?_, ?_, ?_⟩
  · intro k hk
    rcases List.mem_append.mp hk with hk | hk
    · have hx := h2 k hk
      exact ⟨hx.1, by omega⟩
    · simp only [List.mem_singleton] at hk
      subst hk
      exact ⟨by omega, by omega⟩
  · intro r hr
    rcases List.mem_append.mp hr with hr | hr
    · have hx := h3 r hr
      exact ⟨hx.1, by omega⟩
    · simp only [List.mem_singleton] at hr
      subst hr
      exact ⟨Or.inr (by omega), by omega⟩
  · rw [List.nodup_append]
    refine ⟨h4, List.nodup_singleton _, ?_⟩
    intro a ha hb
    simp only [List.mem_singleton] at hb
    subst hb
    have hx := h2 a ha
    omega
  · rw [List.pairwise_append]
    refine ⟨h5, List.pairwise_singleton _ _, ?_⟩
    intro a ha b hb
    simp only [List.mem_singleton] at hb
    subst hb
    intro hpos
    have hx := h3 a ha
    omega

/-- Removing registered handles preserves the core invariant. -/
lemma invCore_sub (keys keys2 : List Int) (n : Int) (rets : List Int)
    (h : InvCore keys n rets) (hsub : keys2.Sublist keys) :
    InvCore keys2 n rets := by
  obtain ⟨h1, h2, h3, h4, h5⟩ := h
  exact ⟨h1, fun k hk => h2 k (hsub.subset hk), h3, h4.sublist hsub, h5⟩

/-- Every facade operation preserves ClientInv. -/
lemma clientStep_inv (st : GrpcClient × List Int) (op : ClientOp)
    (h : ClientInv st.1 st.2) :
    ClientInv (clientStep st op).1 (clientStep st op).2 := by
  cases op with
  | connectOp e o => exact h
  | startStreamOp t m req o =>
      cases hstub : st.1.pool.get_stub with
      | none =>
          have e1 : clientStep st (ClientOp.startStreamOp t m req o)
              = (st.1, st.2 ++ [-1]) := by
            show ((st.1.start_stream t m req o).2,
                  st.2 ++ [(st.1.start_stream t m req o).1]) = _
            rw [start_stream_none st.1 t m req o hstub]
          rw [e1]
          exact invCore_fail _ _ _ h
      | some u =>
          have e1 : clientStep st (ClientOp.startStreamOp t m req o)
              = ({ st.1 with
                     nextStreamId := st.1.nextStreamId + 1,
                     activeStreams := st.1.activeStreams ++
                       [(st.1.nextStreamId,
                         ((mkStream st.1.nextStreamId t m req).start o).1)] },
                 st.2 ++ [st.1.nextStreamId]) := by
            show ((st.1.start_stream t m req o).2,
                  st.2 ++ [(st.1.start_stream t m req o).1]) = _
            rw [start_stream_some st.1 u t m req o hstub]
          rw [e1]
          unfold ClientInv
          have e2 : registryKeys { st.1 with
              nextStreamId := st.1.nextStreamId + 1,
              activeStreams := st.1.activeStreams ++
                [(st.1.nextStreamId,
                  ((mkStream st.1.nextStreamId t m req).start o).1)] }
              = registryKeys st.1 ++ [st.1.nextStreamId] := by
            simp [registryKeys]
          rw [e2]
          exact invCore_alloc _ _ _ h
  | sendOp hdl p =>
      cases hf : st.1.activeStreams.find? (fun x => x.1 == hdl) with
      | none =>
          have e1 : clientStep st (ClientOp.sendOp hdl p) = (st.1, st.2) := by
            show ((st.1.stream_send hdl p).2.1, st.2) = _
            rw [stream_send_missing st.1 hdl p hf]
          rw [e1]
          exact h
      | some e =>
          have e1 : clientStep st (ClientOp.sendOp hdl p)
              = (setStream st.1 hdl (e.2.send p).2.1, st.2) := by
            show ((st.1.stream_send hdl p).2.1, st.2) = _
            rw [stream_send_found st.1 hdl p e hf]
          rw [e1]
          unfold ClientInv
          rw [registryKeys_set]
          exact h
  | closeSendOp hdl =>
      cases hf : st.1.activeStreams.find? (fun x => x.1 == hdl) with
      | none =>
          have e1 : clientStep st (ClientOp.closeSendOp hdl) = (st.1, st.2) := by
            show ((st.1.stream_close_send hdl).1, st.2) = _
            rw [stream_close_send_missing st.1 hdl hf]
          rw [e1]
          exact h
      | some e =>
          have e1 : clientStep st (ClientOp.closeSendOp hdl)
              = (setStream st.1 hdl (e.2.close_send).1, st.2) := by
            show ((st.1.stream_close_send hdl).1, st.2) = _
            rw [stream_close_send_found st.1 hdl e hf]
          rw [e1]
          unfold ClientInv
          rw [registryKeys_set]
          exact h
  | cancelOp hdl =>
      cases hf : st.1.activeStreams.find? (fun x => x.1 == hdl) with
      | none =>
          have e1 : clientStep st (ClientOp.cancelOp hdl) = (st.1, st.2) := by
            show ((st.1.stream_cancel hdl).1, st.2) = _
            rw [stream_cancel_missing st.1 hdl hf]
          rw [e1]
          exact h
      | some e =>
          have e1 : clientStep st (ClientOp.cancelOp hdl)
              = (eraseStream st.1 hdl, st.2) := by
            show ((st.1.stream_cancel hdl).1, st.2) = _
            rw [stream_cancel_found st.1 hdl e hf]
          rw [e1]
          exact invCore_sub _ _ _ _ h (registryKeys_erase_sublist st.1 hdl)
  | serverCancelOp hdl =>
      cases hf : st.1.activeStreams.find? (fun x => x.1 == hdl) with
      | none =>
          have e1 : clientStep st (ClientOp.serverCancelOp hdl) = (st.1, st.2) := by
            show ((st.1.server_stream_cancel hdl).1, st.2) = _
            rw [show st.1.server_stream_cancel hdl = st.1.stream_cancel hdl from rfl]
            rw [stream_cancel_missing st.1 hdl hf]
          rw [e1]
          exact h
      | some e =>
          have e1 : clientStep st (ClientOp.serverCancelOp hdl)
              = (eraseStream st.1 hdl, st.2) := by
            show ((st.1.server_stream_cancel hdl).1, st.2) = _
            rw [show st.1.server_stream_cancel hdl = st.1.stream_cancel hdl from rfl]
            rw [stream_cancel_found st.1 hdl e hf]
          rw [e1]
          exact invCore_sub _ _ _ _ h (registryKeys_erase_sublist st.1 hdl)
  | finishedOp hdl code m =>
      exact invCore_sub _ _ _ _ h (registryKeys_erase_sublist st.1 hdl)
  | erroredOp hdl code m =>
      exact invCore_sub _ _ _ _ h (registryKeys_erase_sublist st.1 hdl)
  | closeOp =>
      obtain ⟨h1, h2, h3, h4, h5⟩ := h
      exact ⟨h1, fun k hk => absurd hk (List.not_mem_nil k), h3,
        List.nodup_nil, h5⟩

/-- ClientInv holds after any run from the freshly constructed client. -/
lemma clientRun_inv (ops : List ClientOp) :
    ClientInv (clientRun ops).1 (clientRun ops).2 := by
  have hgen : ∀ st : GrpcClient × List Int, ClientInv st.1 st.2 →
      ClientInv (ops.foldl clientStep st).1 (ops.foldl clientStep st).2 := by
    induction ops with
    | nil => exact fun st h => h
    | cons op rest ih =>
        intro st h
        exact ih (clientStep st op) (clientStep_inv st op h)
  refine hgen (initialClient, []) ?_
  refine ⟨le_refl 1, ?_, ?_, ?_, ?_⟩
  · intro k hk
    simp [registryKeys, initialClient] at hk
  · intro r hr
    simp at hr
  · simp [registryKeys, initialClient]
  · exact List.Pairwise.nil

/-- C8: along every sequence of facade operations from a fresh client,
every handle start_stream returns is either the failure value -1 or
positive; every successful handle strictly exceeds all previously returned
handles (monotonically increasing allocation, so handles are never reused);
the registered handles are distinct and positive; and start_stream with no
channel/stub installed returns -1 (≤ 0). -/
theorem stream_handles_spec (ops : List ClientOp) :
    (∀ r ∈ (clientRun ops).2, r = -1 ∨ 0 < r)
    ∧ List.Pairwise (fun a b => 0 < b → a < b) (clientRun ops).2
    ∧ (registryKeys (clientRun ops).1).Nodup
    ∧ (∀ k ∈ registryKeys (clientRun ops).1, 0 < k)
    ∧ (∀ (c : GrpcClient) (t : StreamType) (m : String) (req : Bytes)
         (o : StartOracle), c.pool.get_stub = none →
         (c.start_stream t m req o).1 = -1) := by
  obtain ⟨h1, h2, h3, h4, h5⟩ := clientRun_inv ops
  refine ⟨fun r hr => (h3 r hr).1, h5, h4, fun k hk => (h2 k hk).1, ?_⟩
  intro c t m req o hstub
  unfold GrpcClient.start_stream
  rw [hstub]

/-- Witness for stream_handles_spec: a disconnected fresh client rejects a
stream start with -1. -/
theorem stream_handles_spec_witness :
    (initialClient.start_stream StreamType.bidirectional ("/pkg.Svc/Chat")
      [] allOkOracle).1 = -1 :=
  (stream_handles_spec []).2.2.2.2 initialClient StreamType.bidirectional
    ("/pkg.Svc/Chat") [] allOkOracle rfl

end GodotGrpc
